import Mathlib

/-!
# Verification of the cookie-cutter Redis stream consumer

A shallow embedding of `packages/redis/src` (RedisStreamSource, RedisClient)
together with proofs about the consumer-group read/claim/acknowledge loop,
the key/value object codec path and group creation.

The embedding mirrors the TypeScript source:

* JavaScript values that may be `undefined` are `Option`s; property access on
  a value that lacks the property yields `none`, and `undefined > n` is
  `false` (`jsGtNat`).
* Fallible code returns `Except RErr`; a JavaScript `TypeError` raised by
  destructuring `undefined` is `RErr.jsType`.
* Network replies are supplied through explicit response oracles
  (`ClientResponses`), so that races (an entry acknowledged between
  `xPending` and the claim attempt) are expressed by the oracle's answers.
* The generator `start` is embedded as a per-iteration function
  (`startIteration`) plus a schedule-bounded run (`startRun`); the events it
  produces (client calls and yields) are collected in order into lists.
-/

namespace CookieCutterRedis

/-! ## Errors and JavaScript-semantics helpers -/

/-- Error kinds crossing the client boundary.  `busyGroup` is the Redis
"group already exists" reply, `transport` any connection-level failure and
`jsType` the JavaScript `TypeError` raised by destructuring `undefined`. -/
inductive RErr where
  | busyGroup
  | transport (msg : String)
  | jsType
deriving DecidableEq, Repr

/-- The literal message compared against in `RedisClient.xGroup`. -/
def busyGroupMessage : String := "BUSYGROUP Consumer Group name already exists"

/-- The `message` property of an error object. -/
def RErr.message : RErr → String
  | .busyGroup => busyGroupMessage
  | .transport m => m
  | .jsType => "TypeError"

/-- JavaScript `a > b` where `a` may be `undefined`: `undefined > b` is
`false`. -/
def jsGtNat : Option Nat → Nat → Bool
  | none, _ => false
  | some a, b => decide (b < a)

/-- JavaScript truthiness of a `string | undefined` value: `undefined` and
the empty string are falsy. -/
def jsTruthy : Option String → Bool
  | none => false
  | some s => decide (s ≠ "")

/-! ## Server reply shapes and the extract helpers of `RedisClient.ts`

`StreamResult` is the reply shape declared in `RedisProxy.ts`:
`[[streamName, [[streamId, [key, value, ...]]]]]`. -/

/-- Reply shape `[[streamName, [[streamId, keyValues]]]]` from `RedisProxy.ts`. -/
abbrev StreamResult := List (String × List (String × List String))

/-- Function `extractStreamValue` from `RedisClient.ts`:
`const [, [streamValue]] = results[0]` throws a `TypeError` when
`results[0]` is `undefined`, and `const [, keyValues] = streamValue` throws
when the entry list is empty (`streamValue` is then `undefined`); otherwise
the data is the second element of the key/value array (possibly
`undefined`). -/
def extractStreamValue : StreamResult → Except RErr (Option String)
  | [] => .error .jsType
  | (_, values) :: _ =>
    match values with
    | [] => .error .jsType
    | (_, keyValues) :: _ => .ok keyValues[1]?

/-- Function `extractStreamId` from `RedisClient.ts`: same destructuring pattern,
returning the first component of the first entry. -/
def extractStreamId : StreamResult → Except RErr String
  | [] => .error .jsType
  | (_, values) :: _ =>
    match values with
    | [] => .error .jsType
    | (streamId, _) :: _ => .ok streamId

/-! ## Configuration and the decode pipeline -/

/-- The `IRedisInputStreamOptions` configuration (index.ts), restricted to the fields the
stream source reads. -/
structure SourceConfig where
  readStream : String
  consumerGroup : String
  consumerId : String
  consumerGroupStartId : String
  idleTimeoutMs : Nat
  idleTimeoutBatchSize : Nat
  base64Encode : Bool
deriving DecidableEq, Repr

/-- The external decode pipeline used by `xReadGroupObject`:
`Buffer.from(value, "base64")` (when `base64Encode`) followed by
`encoder.decode`.  Both are external collaborators; the model carries them
as plain functions on the stored string. -/
structure DecodeEnv where
  fromBase64 : String → String
  decode : String → String

/-- The `if (value) { Buffer.from ... ; encoder.decode ... }` body of
`xReadGroupObject`. -/
def decodeValue (cfg : SourceConfig) (env : DecodeEnv) (v : String) : String :=
  env.decode (if cfg.base64Encode then env.fromBase64 v else v)

/-- Method `RedisClient.xReadGroupObject` applied to a server reply: extract the
value, extract the stream id (each may throw), decode the value when it is
truthy, and return the `[streamId, data]` pair (with `data` possibly
`undefined`). -/
def xReadGroupObject (cfg : SourceConfig) (env : DecodeEnv) (response : StreamResult) :
    Except RErr (String × Option String) := do
  let value ← extractStreamValue response
  let streamId ← extractStreamId response
  let data : Option String :=
    match value with
    | some v => if v = "" then none else some (decodeValue cfg env v)
    | none => none
  .ok (streamId, data)

/-! ## Pending entries -/

/-- Modelled from the spec: `IPelResult` is exported by `RedisClient.ts` and
referenced by the `IRedisClient` declaration in index.ts
(`xPending(...): Promise<IPelResult[]>`), but its definition and the
normalization of the raw `xpending` reply into it are not under src (the
snapshot's `RedisClient.xPending` still returns the raw positional arrays).
Spec section 4.1 `ListPending` gives the record shape:
pending entry = streamId, owning consumer, idle time in ms, delivery
count. -/
structure PelResult where
  streamId : String
  consumerId : String
  idleTime : Nat
  timesDelivered : Nat
deriving DecidableEq, Repr

/-- One element of the `pendingMessages` array inside `start`.  In the
initial iteration `pendingMessages` is the `[streamId, data]` pair returned
by `xReadGroupObject` (element 0 a string, element 1 the decoded message or
`undefined` - neither has an `idleTime` property); in later iterations it is
an `IPelResult` record returned by `xPending`. -/
inductive PendingElem where
  | idStr (s : String)
  | msgOpt (m : Option String)
  | pel (p : PelResult)
deriving DecidableEq, Repr

/-- JavaScript access to `.streamId` on a `pendingMessages` element. -/
def PendingElem.streamIdProp : PendingElem → Option String
  | .pel p => some p.streamId
  | _ => none

/-- JavaScript access to `.consumerId` on a `pendingMessages` element. -/
def PendingElem.consumerIdProp : PendingElem → Option String
  | .pel p => some p.consumerId
  | _ => none

/-- JavaScript access to `.idleTime` on a `pendingMessages` element. -/
def PendingElem.idleTimeProp : PendingElem → Option Nat
  | .pel p => some p.idleTime
  | _ => none

/-- JavaScript access to `.timesDelivered` on a `pendingMessages`
element. -/
def PendingElem.timesDeliveredProp : PendingElem → Option Nat
  | .pel p => some p.timesDelivered
  | _ => none

/-! ## The client-call trace -/

/-- A client call issued by the stream source, as recorded in the event
trace.  `readGroup` is `xReadGroupObject` with the given cursor,
`readGroupBatch` the batch read of `startV2`, `claim` is `xClaimObject`
(the id is `Option` because the destructured `streamId` property may be
`undefined`), `ack` is `xAck` and `group` the `xgroup create` command with
the cursor literal it sends. -/
inductive Call where
  | readGroup (cursor : String)
  | readGroupBatch (count : Nat) (cursor : String)
  | pending (count : Nat)
  | claim (minIdle : Nat) (id : Option String)
  | ack (id : Option String)
  | group (cursor : String)
deriving DecidableEq, Repr

/-- A message yielded to the caller, with the metadata `start` attaches:
messages from the claim path get `streamId`, `consumerId`, `idleTime` and
`timesDelivered`; messages from the new-entry read only `streamId`. -/
structure Yielded where
  payload : String
  metaStreamId : Option String
  metaConsumerId : Option String
  metaIdleTime : Option Nat
  metaTimesDelivered : Option Nat
deriving DecidableEq, Repr

/-- The per-iteration server responses (everything the network returns).
`claim` is the resolved value of `xClaimObject` for a given stream id.

Modelled from the spec: `xClaimObject` is invoked by
`RedisStreamSource.start` but absent from src (`RedisClient` defines
`xClaim`, and the `IRedisClient` declaration types it as
`Promise<[string, T] | undefined>`).  Spec section 4.1 `Claim`: the claim
returns the entry on success and is a no-op failure - resolving to
`undefined` per the declared type - when the entry is no longer pending. -/
structure ClientResponses where
  readGroupZero : StreamResult
  readGroupNew : StreamResult
  pending : List PelResult
  claim : Option String → Option (String × String)

/-! ## The `start` loop of `RedisStreamSource.ts` -/

/-- The `for (let {streamId, consumerId, idleTime, timesDelivered} of
expiredIdleMessages)` loop body of `start`: destructure the element's
properties, call `xClaimObject`, destructure its result
(`const [, msg] = ...` throws a `TypeError` when the claim resolved to
`undefined`), attach the pre-claim metadata and yield. -/
def claimLoop (cfg : SourceConfig) (resp : ClientResponses) :
    List PendingElem → List Call × List Yielded × Option RErr
  | [] => ([], [], none)
  | e :: rest =>
    match resp.claim e.streamIdProp with
    | none => ([Call.claim cfg.idleTimeoutMs e.streamIdProp], [], some .jsType)
    | some pr =>
      (Call.claim cfg.idleTimeoutMs e.streamIdProp :: (claimLoop cfg resp rest).1,
        { payload := pr.2
          metaStreamId := e.streamIdProp
          metaConsumerId := e.consumerIdProp
          metaIdleTime := e.idleTimeProp
          metaTimesDelivered := e.timesDeliveredProp } :: (claimLoop cfg resp rest).2.1,
        (claimLoop cfg resp rest).2.2)

/-- One iteration of the `while (!this.done)` loop of `start`.  When
`initial` the iteration reads the consumer's own pending entries with
cursor `"0"` (the result is the `[streamId, data]` pair of
`xReadGroupObject`); otherwise it lists the group's pending entries.  The
result is filtered by `idleTime > idleTimeoutMs`; a non-empty filter result
drives the claim loop, otherwise a single new entry is read with the
default cursor `">"` and yielded.  Errors propagate (the surrounding
`catch` rethrows after failing the span). -/
def startIteration (cfg : SourceConfig) (env : DecodeEnv) (resp : ClientResponses)
    (initial : Bool) : List Call × List Yielded × Option RErr :=
  let firstCall :=
    if initial then Call.readGroup "0" else Call.pending cfg.idleTimeoutBatchSize
  let pmE : Except RErr (List PendingElem) :=
    if initial then
      (xReadGroupObject cfg env resp.readGroupZero).map fun p =>
        [PendingElem.idStr p.1, PendingElem.msgOpt p.2]
    else
      .ok (resp.pending.map PendingElem.pel)
  match pmE with
  | .error e => ([firstCall], [], some e)
  | .ok pendingMessages =>
    let expiredIdleMessages := pendingMessages.filter fun e =>
      jsGtNat e.idleTimeProp cfg.idleTimeoutMs
    if 0 < expiredIdleMessages.length then
      (firstCall :: (claimLoop cfg resp expiredIdleMessages).1,
        (claimLoop cfg resp expiredIdleMessages).2.1,
        (claimLoop cfg resp expiredIdleMessages).2.2)
    else
      match xReadGroupObject cfg env resp.readGroupNew with
      | .error e => ([firstCall, Call.readGroup ">"], [], some e)
      | .ok (_, none) => ([firstCall, Call.readGroup ">"], [], some RErr.jsType)
      | .ok (streamId, some m) =>
        ([firstCall, Call.readGroup ">"],
          [{ payload := m
             metaStreamId := some streamId
             metaConsumerId := none
             metaIdleTime := none
             metaTimesDelivered := none }],
          none)

/-- A run of `start`: iterations consume the response schedule in order
(the schedule length bounds the run, standing in for the `done` flag); the
`initial` flag is true for the first iteration only and an iteration error
terminates the run, as the rethrow in `start` does. -/
def startRun (cfg : SourceConfig) (env : DecodeEnv) :
    List ClientResponses → Bool → List Call × List Yielded × Option RErr
  | [], _ => ([], [], none)
  | r :: rs, initial =>
    match startIteration cfg env r initial with
    | (cs, ys, some e) => (cs, ys, some e)
    | (cs, ys, none) =>
      (cs ++ (startRun cfg env rs false).1,
        ys ++ (startRun cfg env rs false).2.1,
        (startRun cfg env rs false).2.2)

/-! ## Delivery handles and acknowledgment -/

/-- The acknowledgment state captured by the `msg.once("released", ...)`
registration in `start`: the stream/group/id the handler will acknowledge
and whether the one-shot handler has already fired.

Modelled from the spec: `MessageRef` and its `once`/release mechanism live
in the core package, not under src.  Spec sections 4.3 and 9: the
completion signal is one-shot ("callable exactly once", "guarded against
double-fire"); firing it runs the registered handler at most once. -/
structure DeliveryHandle where
  readStream : String
  consumerGroup : String
  ackId : Option String
  releasedFired : Bool
deriving DecidableEq, Repr

/-- The handle created for a yielded message: the released handler
acknowledges the captured `streamId`. -/
def mkHandle (cfg : SourceConfig) (y : Yielded) : DeliveryHandle :=
  { readStream := cfg.readStream
    consumerGroup := cfg.consumerGroup
    ackId := y.metaStreamId
    releasedFired := false }

/-- One firing of the completion signal: the first firing runs the
registered handler (issuing `xAck` for the captured stream id), later
firings find no handler registered and issue nothing. -/
def releaseOnce (h : DeliveryHandle) : DeliveryHandle × List Call :=
  if h.releasedFired then (h, [])
  else ({ h with releasedFired := true }, [Call.ack h.ackId])

/-- Runs `n` consecutive firings of the completion signal, collecting every
`xAck` call issued. -/
def releaseN : Nat → DeliveryHandle → DeliveryHandle × List Call
  | 0, h => (h, [])
  | n + 1, h =>
    let (h1, cs1) := releaseOnce h
    let (h2, cs2) := releaseN n h1
    (h2, cs1 ++ cs2)

/-! ## `startV2` -/

/-- An element of the batch returned by the `xReadGroup` call in
`startV2`. -/
structure BatchMessage where
  streamId : String
  payload : String
deriving DecidableEq, Repr

/-- Generator `RedisStreamSource.startV2`: a single non-blocking batch read with
cursor `"0"` and `idleTimeoutBatchSize`, whose entries are each wrapped in
a `MessageRef` (with the released handler acknowledging
`message.streamId`) and yielded; the generator then ends.

Modelled from the spec: the batch variant `xReadGroup` that `startV2`
invokes is absent from src (only this caller exists); spec section 4.1
`ReadGroup` describes it as returning up to `count` entries for the given
cursor, here supplied as the `batch` oracle. -/
def startV2 (cfg : SourceConfig) (batch : List BatchMessage) :
    List Call × List Yielded :=
  ([Call.readGroupBatch cfg.idleTimeoutBatchSize "0"],
    batch.map fun m =>
      { payload := m.payload
        metaStreamId := some m.streamId
        metaConsumerId := none
        metaIdleTime := none
        metaTimesDelivered := none })

/-! ## Group creation (`RedisClient.xGroup`, `RedisStreamSource.initialize`) -/

/-- Server-side state of one `(stream, group)` pair: whether the group
exists and the cursor it was created with. -/
structure GroupState where
  groupExists : Bool
  startCursor : String
deriving DecidableEq, Repr

/-- Modelled from the spec: the Redis server's
`XGROUP CREATE <stream> <group> <cursor> MKSTREAM` semantics (spec
sections 3 and 4.1): creating an absent group creates stream and group with
the given cursor; creating an existing group is refused with the BUSYGROUP
error and changes nothing. -/
def serverXGroupCreate (st : GroupState) (cursor : String) :
    Except RErr String × GroupState :=
  if st.groupExists then (.error .busyGroup, st)
  else (.ok "OK", { groupExists := true, startCursor := cursor })

/-- The reply handling of `RedisClient.xGroup`: a `BUSYGROUP ...` error is
converted to the success reply `"OK"` when `supressAlreadyExistsError`
holds, every other error is rethrown. -/
def xGroupHandle (supressAlreadyExistsError : Bool) (reply : Except RErr String) :
    Except RErr String :=
  match reply with
  | .ok r => .ok r
  | .error err =>
    if supressAlreadyExistsError && (err.message = busyGroupMessage) then .ok "OK"
    else .error err

/-- Method `RedisClient.xGroup` run against the group-state model: the command it
sends is `["create", streamName, consumerGroup, "$", "mkstream"]` - the
cursor is the hardcoded literal `"$"` (the method has no start-id
parameter). -/
def xGroupOnServer (supressAlreadyExistsError : Bool) (st : GroupState) :
    List Call × Except RErr String × GroupState :=
  let (reply, st1) := serverXGroupCreate st "$"
  ([Call.group "$"], xGroupHandle supressAlreadyExistsError reply, st1)

/-- Method `RedisStreamSource.initialize` with the server's reply to the single
`xgroup create` command as oracle: it invokes `RedisClient.xGroup` once,
passing `this.config.consumerGroupStartId` in the fourth argument position
- which is `xGroup`'s `supressAlreadyExistsError` boolean parameter, so the
start id acts as a truthiness flag (only the empty string is falsy) and the
cursor sent is always `"$"`.  The `catch` rethrows, so a non-suppressed
error is the result of `initialize`. -/
def initializeModel (cfg : SourceConfig) (reply : Except RErr String) :
    List Call × Except RErr Unit :=
  let supress := decide (cfg.consumerGroupStartId ≠ "")
  let result := xGroupHandle supress reply
  ([Call.group "$"],
    match result with
    | .ok _ => .ok ()
    | .error e => .error e)

/-! ## Key/value objects (`putObject` / `getObject`) -/

/-- The `IRedisOptions` configuration, restricted to the field the object codec path reads. -/
structure ClientOptions where
  base64Encode : Bool
deriving DecidableEq, Repr

/-- An `IMessage`: a type tag and a payload. -/
structure PGMessage (P : Type) where
  type : String
  payload : P
deriving DecidableEq, Repr

/-- The external `IMessageEncoder`: `encode` to bytes and `decode` back
given the type name. -/
structure PGEncoder (P : Type) where
  encode : PGMessage P → List Nat
  decode : List Nat → String → PGMessage P

/-- The external byte/string transport used by `putObject`/`getObject`:
`toBase64`/`fromBase64` are `Buffer.toString("base64")` and
`Buffer.from(s, "base64")`; `bufToStr`/`bufOfStr` are the raw
(non-base64) round trip of a stored `Buffer` through the string reply of
`get`. -/
structure PGTransport where
  toBase64 : List Nat → String
  fromBase64 : String → List Nat
  bufToStr : List Nat → String
  bufOfStr : String → List Nat

/-- Command `SET key value` against an association-list store. -/
def kvSet (store : List (String × String)) (key val : String) :
    List (String × String) :=
  (key, val) :: store

/-- Command `GET key` against an association-list store. -/
def kvGet (store : List (String × String)) (key : String) : Option String :=
  (store.find? fun kv => kv.1 = key).map fun kv => kv.2

/-- Method `RedisClient.putObject`: encode the typed message with the encoder,
wrap in base64 when `base64Encode` is set, and `SET` it under `key`. -/
def putObject {P : Type} (cfg : ClientOptions) (enc : PGEncoder P) (tp : PGTransport)
    (typeName : String) (body : P) (key : String)
    (store : List (String × String)) : List (String × String) :=
  let msg : PGMessage P := { type := typeName, payload := body }
  let encodedBody := enc.encode msg
  let storableValue :=
    if cfg.base64Encode then tp.toBase64 encodedBody else tp.bufToStr encodedBody
  kvSet store key storableValue

/-- Method `RedisClient.getObject`: get the key; the `if (response)` truthiness
guard skips decoding when the reply is `undefined` or the empty string; a
truthy reply is unwrapped with the same `base64Encode` toggle and decoded.
The second component counts invocations of `encoder.decode`. -/
def getObject {P : Type} (cfg : ClientOptions) (enc : PGEncoder P) (tp : PGTransport)
    (typeName : String) (key : String)
    (store : List (String × String)) : Option P × Nat :=
  let response := kvGet store key
  match response with
  | none => (none, 0)
  | some s =>
    if s = "" then (none, 0)
    else
      let buf := if cfg.base64Encode then tp.fromBase64 s else tp.bufOfStr s
      let msg := enc.decode buf typeName
      (some msg.payload, 1)

/-! ## Concrete fixtures used by the closed evaluations and witnesses -/

/-- A concrete stream-source configuration: stream `orders`, group
`workers`, idle timeout 5000 ms, batch size 5. -/
def cfgA : SourceConfig :=
  { readStream := "orders", consumerGroup := "workers", consumerId := "c1",
    consumerGroupStartId := "$", idleTimeoutMs := 5000,
    idleTimeoutBatchSize := 5, base64Encode := false }

/-- An identity decode pipeline for the concrete evaluations. -/
def envId : DecodeEnv := { fromBase64 := fun s => s, decode := fun s => s }

/-- First-iteration responses: the consumer has a pending entry left from a
previous run (stream id `1-0`, value `P`) which the cursor-`"0"` read
returns, and the stream holds a new entry (`2-0`, value `N`). -/
def respCatchUpA : ClientResponses :=
  { readGroupZero := [("orders", [("1-0", ["key", "P"])])],
    readGroupNew := [("orders", [("2-0", ["key", "N"])])],
    pending := [],
    claim := fun _ => none }

/-- Second-iteration responses: the group listing reports nothing pending
and the stream holds a further new entry (`3-0`, value `N2`). -/
def respCatchUpB : ClientResponses :=
  { readGroupZero := [],
    readGroupNew := [("orders", [("3-0", ["key", "N2"])])],
    pending := [],
    claim := fun _ => none }

/-- Live-iteration responses for the stale-claim race: the pending listing
reports entry `1-0` as idle for 6000 ms (over the 5000 ms timeout) under
consumer `A`, but the entry is acknowledged concurrently, so the claim
attempt resolves to nothing. -/
def respStaleClaim : ClientResponses :=
  { readGroupZero := [], readGroupNew := [],
    pending := [{ streamId := "1-0", consumerId := "A",
                  idleTime := 6000, timesDelivered := 1 }],
    claim := fun _ => none }

/-- Live-iteration responses where the abandoned entry `1-0` is still
pending and the claim succeeds with value `V`. -/
def respReclaim : ClientResponses :=
  { readGroupZero := [], readGroupNew := [],
    pending := [{ streamId := "1-0", consumerId := "A",
                  idleTime := 6000, timesDelivered := 1 }],
    claim := fun i => if i = some "1-0" then some ("1-0", "V") else none }

/-- A codec for the C7 counterexample: it encodes every message to the
empty byte sequence, yet satisfies the decode-encode round trip for the
unit payload. -/
def encEmpty : PGEncoder Unit :=
  { encode := fun _ => [], decode := fun _ _ => { type := "T", payload := () } }

/-- A transport wrapping that renders zero bytes as the empty string, as
the real base64 wrapping does. -/
def tpEmpty : PGTransport :=
  { toBase64 := fun bs => String.join (bs.map fun n => toString n),
    fromBase64 := fun s => if s = "" then [] else [0],
    bufToStr := fun bs => String.join (bs.map fun n => toString n),
    bufOfStr := fun s => if s = "" then [] else [0] }

/-- A small concrete codec over natural-number payloads, used by the
witnesses. -/
def encNat : PGEncoder Nat :=
  { encode := fun m => [m.payload + 1],
    decode := fun bs _ => { type := "T", payload := bs.headD 1 - 1 } }

/-- A concrete transport wrapping that inverts itself on the byte sequence
the witnesses store. -/
def tpNum : PGTransport :=
  { toBase64 := fun bs => String.join (bs.map fun n => toString n ++ ";"),
    fromBase64 := fun s => if s = "42;" then [42] else [],
    bufToStr := fun bs => String.join (bs.map fun n => toString n ++ ";"),
    bufOfStr := fun s => if s = "42;" then [42] else [] }

/-! ## Helper lemmas -/

/-- Every call issued by the claim loop is an `xClaimObject` call with the
configured idle timeout. -/
theorem claimLoop_calls_claim (cfg : SourceConfig) (resp : ClientResponses) :
    ∀ l : List PendingElem, ∀ c ∈ (claimLoop cfg resp l).1,
      ∃ id, c = Call.claim cfg.idleTimeoutMs id := by
  intro l
  induction l with
  | nil => simp [claimLoop]
  | cons e rest ih =>
    intro c hc
    unfold claimLoop at hc
    cases h : resp.claim e.streamIdProp with
    | none =>
      rw [h] at hc
      simp only [List.mem_singleton] at hc
      exact ⟨e.streamIdProp, hc⟩
    | some pr =>
      rw [h] at hc
      simp only [List.mem_cons] at hc
      rcases hc with hc | hc
      · exact ⟨e.streamIdProp, hc⟩
      · exact ih c hc

/-- Every message yielded by the claim loop over pending records carries
the pre-claim owning-consumer metadata. -/
theorem claimLoop_yields_meta (cfg : SourceConfig) (resp : ClientResponses) :
    ∀ l : List PendingElem, (∀ e ∈ l, ∃ p, e = PendingElem.pel p) →
      ∀ y ∈ (claimLoop cfg resp l).2.1, y.metaConsumerId.isSome := by
  intro l
  induction l with
  | nil => simp [claimLoop]
  | cons e rest ih =>
    intro hl y hy
    unfold claimLoop at hy
    cases h : resp.claim e.streamIdProp with
    | none =>
      rw [h] at hy
      simp at hy
    | some pr =>
      rw [h] at hy
      simp only [List.mem_cons] at hy
      rcases hy with hy | hy
      · obtain ⟨p, hp⟩ := hl e (List.mem_cons_self e rest)
        subst hy
        simp [hp, PendingElem.consumerIdProp]
      · exact ih (fun x hx => hl x (List.mem_cons_of_mem e hx)) y hy

/-- The elements surviving the `idleTime` filter over a pending listing are
pending records. -/
theorem expired_are_pel (pm : List PelResult) (timeout : Nat) :
    ∀ e ∈ (pm.map PendingElem.pel).filter
      (fun e => jsGtNat e.idleTimeProp timeout), ∃ p, e = PendingElem.pel p := by
  intro e he
  have hm := List.mem_of_mem_filter he
  simp only [List.mem_map] at hm
  obtain ⟨p, _, hp⟩ := hm
  exact ⟨p, hp.symm⟩

/-- Characterization of the client calls a `start` iteration can issue:
the cursor-`"0"` catch-up read, the pending listing, the cursor-`">"` new
read, or a claim.  In particular no `xgroup` and no `xAck` call occurs. -/
theorem startIteration_calls (cfg : SourceConfig) (env : DecodeEnv)
    (resp : ClientResponses) (initial : Bool) :
    ∀ c ∈ (startIteration cfg env resp initial).1,
      c = Call.readGroup "0" ∨ c = Call.pending cfg.idleTimeoutBatchSize ∨
        c = Call.readGroup ">" ∨ ∃ id, c = Call.claim cfg.idleTimeoutMs id := by
  intro c hc
  unfold startIteration at hc
  set pmE : Except RErr (List PendingElem) :=
    (if initial then
      (xReadGroupObject cfg env resp.readGroupZero).map fun p =>
        [PendingElem.idStr p.1, PendingElem.msgOpt p.2]
    else
      .ok (resp.pending.map PendingElem.pel)) with hpmE
  have hfc : (if initial then Call.readGroup "0"
      else Call.pending cfg.idleTimeoutBatchSize) = Call.readGroup "0" ∨
      (if initial then Call.readGroup "0"
      else Call.pending cfg.idleTimeoutBatchSize) = Call.pending cfg.idleTimeoutBatchSize := by
    cases initial <;> simp
  cases hE : pmE with
  | error e =>
    rw [hE] at hc
    simp only [List.mem_singleton] at hc
    subst hc
    rcases hfc with h | h
    · exact Or.inl h
    · exact Or.inr (Or.inl h)
  | ok pendingMessages =>
    rw [hE] at hc
    dsimp only at hc
    by_cases hlen : 0 < (pendingMessages.filter fun e =>
        jsGtNat e.idleTimeProp cfg.idleTimeoutMs).length
    · rw [if_pos hlen] at hc
      simp only [List.mem_cons] at hc
      rcases hc with hc | hc
      · subst hc
        rcases hfc with h | h
        · exact Or.inl h
        · exact Or.inr (Or.inl h)
      · exact Or.inr (Or.inr (Or.inr
          (claimLoop_calls_claim cfg resp _ c hc)))
    · rw [if_neg hlen] at hc
      cases hread : xReadGroupObject cfg env resp.readGroupNew with
      | error e =>
        rw [hread] at hc
        simp only [List.mem_cons, List.not_mem_nil, or_false] at hc
        rcases hc with hc | hc
        · subst hc
          rcases hfc with h | h
          · exact Or.inl h
          · exact Or.inr (Or.inl h)
        · subst hc
          exact Or.inr (Or.inr (Or.inl rfl))
      | ok p =>
        rcases p with ⟨sid, d⟩
        cases d with
        | none =>
          rw [hread] at hc
          simp only [List.mem_cons, List.not_mem_nil, or_false] at hc
          rcases hc with hc | hc
          · subst hc
            rcases hfc with h | h
            · exact Or.inl h
            · exact Or.inr (Or.inl h)
          · subst hc
            exact Or.inr (Or.inr (Or.inl rfl))
        | some m =>
          rw [hread] at hc
          simp only [List.mem_cons, List.not_mem_nil, or_false] at hc
          rcases hc with hc | hc
          · subst hc
            rcases hfc with h | h
            · exact Or.inl h
            · exact Or.inr (Or.inl h)
          · subst hc
            exact Or.inr (Or.inr (Or.inl rfl))

/-- Once the one-shot completion handler has fired, further firings issue
nothing. -/
theorem releaseN_fired (n : Nat) (h : DeliveryHandle)
    (hf : h.releasedFired = true) : releaseN n h = (h, []) := by
  induction n with
  | zero => rfl
  | succ n ih => simp [releaseN, releaseOnce, hf, ih]

/-- Firing the completion signal `n` times on a fresh handle issues the
single acknowledgment exactly when `n` is positive. -/
theorem releaseN_acks (cfg : SourceConfig) (y : Yielded) (n : Nat) :
    (releaseN n (mkHandle cfg y)).2 =
      (if n = 0 then [] else [Call.ack y.metaStreamId]) := by
  cases n with
  | zero => rfl
  | succ n =>
    have h2 : releaseN n
        ({ readStream := cfg.readStream, consumerGroup := cfg.consumerGroup,
           ackId := y.metaStreamId, releasedFired := true } : DeliveryHandle) =
        ({ readStream := cfg.readStream, consumerGroup := cfg.consumerGroup,
           ackId := y.metaStreamId, releasedFired := true }, []) :=
      releaseN_fired n _ rfl
    simp [releaseN, releaseOnce, mkHandle, h2]

/-! ## Claim theorems -/

/-- C1: the claim fails on the code.  Evaluating `start` at the failing
input: the consumer has pending entry `1-0` (value `P`) from a prior run
and the stream holds new entries `2-0` (`N`) and `3-0` (`N2`).  The
cursor-`"0"` catch-up read is issued exactly once, but its result - the
`[streamId, message]` pair of `xReadGroupObject` - is fed into the
`idleTime > idleTimeoutMs` filter, which drops both components because
neither has an `idleTime` property; the iteration falls through to the
cursor-`">"` read, so the pending entry is never yielded while the new
entries are.  The second conjunct records that no yield of the run carries
the pending entry. -/
theorem claim1_catchup_entries_dropped :
    startRun cfgA envId [respCatchUpA, respCatchUpB] true =
      ([Call.readGroup "0", Call.readGroup ">", Call.pending 5, Call.readGroup ">"],
        [{ payload := "N", metaStreamId := some "2-0", metaConsumerId := none,
           metaIdleTime := none, metaTimesDelivered := none },
         { payload := "N2", metaStreamId := some "3-0", metaConsumerId := none,
           metaIdleTime := none, metaTimesDelivered := none }],
        none) ∧
    ((startRun cfgA envId [respCatchUpA, respCatchUpB] true).2.1.all fun y =>
      decide (y.metaStreamId ≠ some "1-0") && decide (y.payload ≠ "P")) = true := by
  exact ⟨rfl, rfl⟩

/-- C2: the claim fails on the code.  Evaluating a Live iteration at the
failing input: the pending listing reports `1-0` as abandoned (idle
6000 ms against a 5000 ms timeout), and the entry is acknowledged
concurrently so the claim resolves to `undefined`.  The caller's
`const [, msg] = await xClaimObject(...)` destructures `undefined`,
raising a `TypeError` that the `catch` in `start` rethrows: the iteration
yields nothing and the error propagates instead of the entry being
skipped. -/
theorem claim2_stale_claim_raises :
    startIteration cfgA envId respStaleClaim false =
      ([Call.pending 5, Call.claim 5000 (some "1-0")], [], some RErr.jsType) := by
  exact rfl

/-- C3: the claim fails on the code.  `RedisClient.xGroup` has no start-id
parameter and always sends the cursor literal `"$"`; `initialize` passes
`config.consumerGroupStartId` into the fourth argument position, which is
`xGroup`'s boolean `supressAlreadyExistsError` parameter.  At the failing
input `consumerGroupStartId = "0"`: the group command still carries `"$"`,
the string `"0"` merely acts as a truthy suppress flag (a BUSYGROUP reply
is converted to success), while an empty start id would disable the
suppression; the group-state model confirms a fresh group is created with
cursor `"$"`. -/
theorem claim3_group_cursor_hardcoded :
    (initializeModel { cfgA with consumerGroupStartId := "0" } (.ok "OK")).1 =
      [Call.group "$"] ∧
    (initializeModel { cfgA with consumerGroupStartId := "0" }
      (.error .busyGroup)).2 = .ok () ∧
    (initializeModel { cfgA with consumerGroupStartId := "" }
      (.error .busyGroup)).2 = .error .busyGroup ∧
    (xGroupOnServer true { groupExists := false, startCursor := "" }).2.2.startCursor
      = "$" := by
  exact ⟨rfl, rfl, rfl, rfl⟩

/-- C4: `initialize` issues exactly one `xgroup create` command, a
non-suppressed failure of that call is returned to the caller unchanged
(no internal retry - the trace still contains the single command), and no
iteration of `start` ever issues a group command, so the group is ensured
before any entry is produced. -/
theorem claim4_initialize_single_group_call (cfg : SourceConfig)
    (reply : Except RErr String) :
    (initializeModel cfg reply).1 = [Call.group "$"] ∧
    (∀ e : RErr, reply = .error e → e.message ≠ busyGroupMessage →
      (initializeModel cfg reply).2 = .error e) ∧
    (∀ (env : DecodeEnv) (resp : ClientResponses) (initial : Bool),
      ∀ c ∈ (startIteration cfg env resp initial).1, ∀ cursor, c ≠ Call.group cursor) := by
  refine ⟨rfl, ?_, ?_⟩
  · intro e he hmsg
    subst he
    simp [initializeModel, xGroupHandle, hmsg]
  · intro env resp initial c hc cursor
    rcases startIteration_calls cfg env resp initial c hc with h | h | h | ⟨id, h⟩ <;>
      subst h <;> simp

/-- Witness for C4 at a concrete transport failure. -/
theorem claim4_witness :
    (initializeModel cfgA (.error (.transport "ECONNRESET"))).2 =
      .error (.transport "ECONNRESET") :=
  (claim4_initialize_single_group_call cfgA _).2.1 _ rfl (by decide)

/-- C5: in every Live iteration whose pending listing contains an entry
with idle time strictly over the configured timeout, the iteration issues
no `xReadGroupObject` call at all (in particular no cursor-`">"` read for
new entries) and every message it yields carries the pre-claim
owning-consumer metadata attached only on the claim path - reclaimed
entries are the only ones yielded. -/
theorem claim5_reclaim_priority (cfg : SourceConfig) (env : DecodeEnv)
    (resp : ClientResponses)
    (h : 0 < ((resp.pending.map PendingElem.pel).filter fun e =>
        jsGtNat e.idleTimeProp cfg.idleTimeoutMs).length) :
    (∀ c ∈ (startIteration cfg env resp false).1, ∀ cursor, c ≠ Call.readGroup cursor) ∧
    (∀ y ∈ (startIteration cfg env resp false).2.1, y.metaConsumerId.isSome) := by
  have hred : startIteration cfg env resp false =
      (Call.pending cfg.idleTimeoutBatchSize ::
        (claimLoop cfg resp ((resp.pending.map PendingElem.pel).filter fun e =>
          jsGtNat e.idleTimeProp cfg.idleTimeoutMs)).1,
       (claimLoop cfg resp ((resp.pending.map PendingElem.pel).filter fun e =>
          jsGtNat e.idleTimeProp cfg.idleTimeoutMs)).2.1,
       (claimLoop cfg resp ((resp.pending.map PendingElem.pel).filter fun e =>
          jsGtNat e.idleTimeProp cfg.idleTimeoutMs)).2.2) := by
    unfold startIteration
    simp only [Bool.false_eq_true, if_false, if_pos h]
  constructor
  · intro c hc cursor
    rw [hred] at hc
    rcases List.mem_cons.1 hc with hc | hc
    · subst hc; simp
    · obtain ⟨id, hid⟩ := claimLoop_calls_claim cfg resp _ c hc
      subst hid; simp
  · intro y hy
    rw [hred] at hy
    exact claimLoop_yields_meta cfg resp _
      (expired_are_pel resp.pending cfg.idleTimeoutMs) y hy

/-- Witness for C5 at the concrete reclaim fixture. -/
theorem claim5_witness :
    ({ payload := "V", metaStreamId := some "1-0", metaConsumerId := some "A",
       metaIdleTime := some 6000, metaTimesDelivered := some 1 } : Yielded).metaConsumerId.isSome :=
  (claim5_reclaim_priority cfgA envId respReclaim (by decide)).2 _ (by decide)

/-- C6: for every yielded message, the one-shot released handler issues
the single `xAck` for the captured stream id exactly when the completion
signal has been fired at least once - firing it twice issues no second
acknowledgment - and no iteration of `start` itself issues an `xAck`
call, so no acknowledgment precedes the completion signal. -/
theorem claim6_single_ack (cfg : SourceConfig) (y : Yielded) (n : Nat) :
    (releaseN n (mkHandle cfg y)).2 =
      (if n = 0 then [] else [Call.ack y.metaStreamId]) ∧
    (∀ (env : DecodeEnv) (resp : ClientResponses) (initial : Bool),
      ∀ c ∈ (startIteration cfg env resp initial).1, ∀ id, c ≠ Call.ack id) := by
  refine ⟨releaseN_acks cfg y n, ?_⟩
  intro env resp initial c hc id
  rcases startIteration_calls cfg env resp initial c hc with h | h | h | ⟨i, h⟩ <;>
    subst h <;> simp

/-- Witness for C6: double release of a concrete handle issues one
acknowledgment, and a concrete loop call is not an acknowledgment. -/
theorem claim6_witness :
    (releaseN 2 (mkHandle cfgA
      { payload := "N", metaStreamId := some "2-0", metaConsumerId := none,
        metaIdleTime := none, metaTimesDelivered := none })).2 =
      (if 2 = 0 then [] else [Call.ack (some "2-0")]) ∧
    Call.pending 5 ≠ Call.ack none :=
  ⟨(claim6_single_ack cfgA
      { payload := "N", metaStreamId := some "2-0", metaConsumerId := none,
        metaIdleTime := none, metaTimesDelivered := none } 2).1,
   (claim6_single_ack cfgA
      { payload := "N", metaStreamId := some "2-0", metaConsumerId := none,
        metaIdleTime := none, metaTimesDelivered := none } 2).2
      envId respStaleClaim false (Call.pending 5) (by decide) none⟩

/-- C7 counterexample: a codec that encodes the unit payload to zero bytes
satisfies the decode-encode round trip, and the transport wrapping is the
identity on that encoding (base64 of zero bytes is the empty string), yet
`getObject` after `putObject` returns nothing: the stored empty string is
falsy, so the truthiness guard skips decoding.  The claim as stated -
round trip for every payload the codec supports - therefore fails. -/
theorem claim7_counterexample :
    (encEmpty.decode (encEmpty.encode { type := "T", payload := () }) "T" =
      { type := "T", payload := () }) ∧
    (tpEmpty.fromBase64 (tpEmpty.toBase64 (encEmpty.encode { type := "T", payload := () })) =
      encEmpty.encode { type := "T", payload := () }) ∧
    (getObject { base64Encode := true } encEmpty tpEmpty "T" "k"
        (putObject { base64Encode := true } encEmpty tpEmpty "T" () "k" [])).1 = none := by
  exact ⟨rfl, rfl, rfl⟩

/-- C7 (amended): for every payload whose encoded form is non-empty under
the transport wrapping, decoding with the same `base64Encode` toggle used
when encoding returns the payload: `getObject` after `putObject` under the
same key and configuration yields the payload, given the codec round trip
and the reversibility of the wrapping at that encoding. -/
theorem claim7_roundtrip {P : Type} (cfg : ClientOptions) (enc : PGEncoder P)
    (tp : PGTransport) (store : List (String × String)) (typeName : String)
    (body : P) (key : String)
    (hb64 : tp.fromBase64 (tp.toBase64 (enc.encode { type := typeName, payload := body })) =
      enc.encode { type := typeName, payload := body })
    (hb64ne : tp.toBase64 (enc.encode { type := typeName, payload := body }) ≠ "")
    (hraw : tp.bufOfStr (tp.bufToStr (enc.encode { type := typeName, payload := body })) =
      enc.encode { type := typeName, payload := body })
    (hrawne : tp.bufToStr (enc.encode { type := typeName, payload := body }) ≠ "")
    (hdec : enc.decode (enc.encode { type := typeName, payload := body }) typeName =
      { type := typeName, payload := body }) :
    (getObject cfg enc tp typeName key
      (putObject cfg enc tp typeName body key store)).1 = some body := by
  cases hb : cfg.base64Encode with
  | true =>
    have hget : kvGet (putObject cfg enc tp typeName body key store) key =
        some (tp.toBase64 (enc.encode { type := typeName, payload := body })) := by
      simp [putObject, kvSet, kvGet, hb]
    simp [getObject, hget, hb64ne, hb, hb64, hdec]
  | false =>
    have hget : kvGet (putObject cfg enc tp typeName body key store) key =
        some (tp.bufToStr (enc.encode { type := typeName, payload := body })) := by
      simp [putObject, kvSet, kvGet, hb]
    simp [getObject, hget, hrawne, hb, hraw, hdec]

/-- Witness for the amended C7 round trip at a concrete codec and
payload. -/
theorem claim7_witness :
    (getObject { base64Encode := true } encNat tpNum "T" "k"
      (putObject { base64Encode := true } encNat tpNum "T" 41 "k" [])).1 = some 41 :=
  claim7_roundtrip { base64Encode := true } encNat tpNum [] "T" 41 "k"
    rfl (by decide) rfl (by decide) rfl

/-- C8: when the group already exists, `xGroup` with suppression enabled
returns the success reply `"OK"` and leaves the group state unchanged -
also on a repeated call - while with suppression disabled it surfaces the
BUSYGROUP error, whose kind is distinct from every transport failure and
from the destructuring `TypeError`. -/
theorem claim8_group_exists (st : GroupState) (h : st.groupExists = true) :
    xGroupOnServer true st = ([Call.group "$"], .ok "OK", st) ∧
    xGroupOnServer true (xGroupOnServer true st).2.2 = ([Call.group "$"], .ok "OK", st) ∧
    (xGroupOnServer false st).2.1 = .error .busyGroup ∧
    (∀ m, (RErr.busyGroup : RErr) ≠ .transport m) ∧
    (RErr.busyGroup : RErr) ≠ .jsType := by
  have h1 : xGroupOnServer true st = ([Call.group "$"], .ok "OK", st) := by
    simp [xGroupOnServer, serverXGroupCreate, h, xGroupHandle, RErr.message]
  refine ⟨h1, ?_, ?_, ?_, ?_⟩
  · rw [h1]
    exact h1
  · simp [xGroupOnServer, serverXGroupCreate, h, xGroupHandle]
  · intro m hm
    cases hm
  · intro hm
    cases hm

/-- Witness for C8 at a concrete existing group. -/
theorem claim8_witness :
    xGroupOnServer true { groupExists := true, startCursor := "0" } =
      ([Call.group "$"], .ok "OK", { groupExists := true, startCursor := "0" }) :=
  (claim8_group_exists { groupExists := true, startCursor := "0" } rfl).1

/-- C9: `startV2` issues exactly one client call - the non-blocking batch
read with cursor `"0"` and the configured batch size - yields exactly the
entries of that one batch, and issues no single-entry read; being a total
function returning finite lists, the generator always ends. -/
theorem claim9_startv2_single_fetch (cfg : SourceConfig) (batch : List BatchMessage) :
    (startV2 cfg batch).1 = [Call.readGroupBatch cfg.idleTimeoutBatchSize "0"] ∧
    (startV2 cfg batch).2.length = batch.length ∧
    (∀ c ∈ (startV2 cfg batch).1, ∀ cursor, c ≠ Call.readGroup cursor) := by
  refine ⟨rfl, by simp [startV2], ?_⟩
  intro c hc cursor
  simp only [startV2, List.mem_singleton] at hc
  subst hc
  simp

/-- Witness for C9 at a concrete one-entry batch. -/
theorem claim9_witness :
    (startV2 cfgA [{ streamId := "1-0", payload := "P" }]).2.length = 1 ∧
    Call.readGroupBatch 5 "0" ≠ Call.readGroup ">" :=
  ⟨(claim9_startv2_single_fetch cfgA [{ streamId := "1-0", payload := "P" }]).2.1,
   (claim9_startv2_single_fetch cfgA [{ streamId := "1-0", payload := "P" }]).2.2
      (Call.readGroupBatch 5 "0") (by decide) ">"⟩

/-- C10: for every key with no stored value, `getObject` returns nothing
and never invokes the message decoder; conversely the decoder runs only
when the server returned a truthy (present and non-empty) response. -/
theorem claim10_missing_key {P : Type} (cfg : ClientOptions) (enc : PGEncoder P)
    (tp : PGTransport) (typeName key : String) (store : List (String × String)) :
    (kvGet store key = none → getObject cfg enc tp typeName key store = (none, 0)) ∧
    ((getObject cfg enc tp typeName key store).2 = 1 →
      ∃ s, kvGet store key = some s ∧ s ≠ "") := by
  constructor
  · intro h
    simp [getObject, h]
  · intro h
    unfold getObject at h
    cases hk : kvGet store key with
    | none =>
      rw [hk] at h
      simp at h
    | some s =>
      rw [hk] at h
      by_cases hs : s = ""
      · subst hs
        simp at h
      · exact ⟨s, rfl, hs⟩

/-- Witness for C10 at a concrete empty store. -/
theorem claim10_witness :
    getObject { base64Encode := true } encNat tpNum "T" "missing" [] = (none, 0) :=
  (claim10_missing_key { base64Encode := true } encNat tpNum "T" "missing" []).1 rfl

end CookieCutterRedis
